import Mathlib

/-!
Verification of `rest_framework/response.py`: the `Response` class
(deferred rendering of an unrendered payload) and the `HttpResponseMessage`
status-code-to-message lookup.

The Python code is shallowly embedded: Python values that can appear as a
response payload become the inductive type `PyVal`; Python dicts and the
Django header mapping become association lists over `String` keys; fallible
code (Python `assert` / `AssertionError`) becomes `Except String`; a
renderer object becomes a structure carrying `media_type`, `charset` and a
`render` function.
-/

namespace DRF

/-- A Python value, as far as this module can observe it: the payload of a
response, or an argument passed to `get_message`.  `serializer tag` stands
for an instance of `rest_framework.serializers.Serializer`; `obj tag` for
any other non-literal object. -/
inductive PyVal where
  | pyNone
  | pyStr (s : String)
  | pyInt (n : Int)
  | serializer (tag : Nat)
  | obj (tag : Nat)
  deriving DecidableEq

/-- Python `isinstance(data, Serializer)`. -/
def PyVal.isSerializer : PyVal → Bool
  | .serializer _ => true
  | _ => false

/-- Lookup in a string-keyed association list (Python dict read,
`d[k]` / `k in d`): the first binding of `k`, if any. -/
def alistGet (l : List (String × α)) (k : String) : Option α :=
  (l.find? (fun kv => kv.1 == k)).map (·.2)

/-- Python dict write `d[k] = v`: every old binding of `k` is dropped and
the new binding added. -/
def alistSet (l : List (String × α)) (k : String) (v : α) : List (String × α) :=
  l.filter (fun kv => kv.1 != k) ++ [(k, v)]

/-- Python dict delete `del d[k]`: every binding of `k` is dropped. -/
def alistDel (l : List (String × α)) (k : String) : List (String × α) :=
  l.filter (fun kv => kv.1 != k)

/-! ## `HttpResponseMessage` -/

namespace HttpResponseMessage

/-- The `HttpResponseMessage.http_default` class attribute. -/
def http_default : String :=
  "服务可能发生了一点点小问题，程序员哥哥正在加班处理.."

/-- The `http_<code>` class attributes of `HttpResponseMessage`:
`http_attr code = some m` exactly when the class has an attribute named
`http_<code>`, with value `m` (`hasattr`/`getattr` on `'http_%s' % code`). -/
def http_attr (code : Int) : Option String :=
  if code = 200 then some "success"
  else if code = 201 then some "资源创建成功"
  else if code = 400 then some "无法执行您的操作，可能是参数等必要条件不足，请按流程重新执行"
  else if code = 401 then some "糟糕，您的登陆信息失效或异常，可重新登陆后在尝试"
  else if code = 403 then some "糟糕，您没有权限访问此资源"
  else if code = 404 then some "您请求的资源不存在"
  else if code = 405 then some "不支持此方式请求，请以正确的姿势进入"
  else if code = 429 then some "请求过快，请降低访问频率"
  else if code = 500 then some "处理异常，服务器可能抽风了"
  else none

/-- Model of `HttpResponseMessage.get_message(code)`.  The Python `assert
isinstance(code, int) and 200 <= code < 600` becomes the `.error` branches;
the `getattr(cls, 'http_%s' % code) if hasattr(...) else cls.http_default`
line becomes `(http_attr n).getD http_default`. -/
def get_message (code : PyVal) : Except String String :=
  match code with
  | .pyInt n =>
    if 200 ≤ n ∧ n < 600 then
      .ok ((http_attr n).getD http_default)
    else
      .error "code Must be a standard HTTP status code"
  | _ => .error "code Must be a standard HTTP status code"

/-- Model of `HttpResponseMessage.__call__(self, code, *args, **kwargs)`: forwards to
`get_message(code)`, ignoring the extra positional and keyword arguments. -/
def call (code : PyVal) (args : List PyVal) (kwargs : List (String × PyVal)) :
    Except String String :=
  get_message code

end HttpResponseMessage

/-! ## `Response` -/

/-- A value stored in a rendering context mapping.  `responseRef` stands for
the back-reference to the response instance itself that `rendered_content`
injects under the key `"response"` (`context['response'] = self`); `other`
stands for any value the pipeline put there beforehand. -/
inductive CtxVal where
  | responseRef
  | other (s : String)
  deriving DecidableEq

/-- A rendering context: a mutable Python mapping. -/
abbrev Ctx := List (String × CtxVal)

/-- What a renderer's `render` may return: Python `str` or `bytes`. -/
inductive RenderResult where
  | text (s : String)
  | bytes (b : List Nat)
  deriving DecidableEq

/-- Model of Python `str.encode(charset)`: the byte encoding of a text under
a charset (library code outside this repository).  The byte-level layout is
abstracted as the list of code points; the claims depend only on which
charset the text is encoded with and on the encoding of `""` being empty. -/
def pyEncode (s : String) (charset : String) : List Nat :=
  s.data.map Char.toNat

/-- A renderer as `rendered_content` uses one: declared `media_type` and
`charset` attributes plus the `render(data, accepted_media_type, context)`
capability. -/
structure Renderer where
  media_type : String
  charset : Option String
  render : PyVal → String → Ctx → RenderResult

/-- The state of a `Response` instance.  `data`, `template_name`,
`exception`, `content_type` and the headers are set by `__init__`;
`accepted_renderer`, `accepted_media_type` and `renderer_context` are the
transient fields attached later by the pipeline (`getattr(self, ..., None)`
reads them, so an unattached field is `none`). -/
structure Response where
  data : PyVal
  status : Option Nat
  template_name : Option String
  exception : Bool
  content_type : Option String
  headers : List (String × String)
  accepted_renderer : Option Renderer := none
  accepted_media_type : Option String := none
  renderer_context : Option Ctx := none

/-- Model of `Response.__init__(data, status, template_name, headers,
exception, content_type)`.  Raises (`.error`) when `isinstance(data, Serializer)`;
otherwise stores the fields and applies each `headers` entry with
`self[name] = value`.  The base-class (`SimpleTemplateResponse`) header
initialisation is framework code outside this repository and is modelled as
the empty header map. -/
def Response.init (data : PyVal) (status : Option Nat)
    (template_name : Option String) (headers : List (String × String))
    (exception : Bool) (content_type : Option String) :
    Except String Response :=
  if data.isSerializer then
    .error "You passed a Serializer instance as data, but probably meant to pass serialized `.data` or `.error`. representation."
  else
    .ok { data := data, status := status, template_name := template_name,
          exception := exception, content_type := content_type,
          headers := headers.foldl (fun h kv => alistSet h kv.1 kv.2) [] }

/-- The content-type computation of `rendered_content`:
`if content_type is None and charset is not None: "<media_type>;
charset=<charset>" elif content_type is None: media_type`, else the
declared `content_type` is kept. -/
def outgoingContentType (declared : Option String) (media_type : String)
    (charset : Option String) : String :=
  match declared with
  | none =>
    match charset with
    | some charset => media_type ++ "; charset=" ++ charset
    | none => media_type
  | some ct => ct

/-- The first half of the `rendered_content` property body, up to and
including the `self['Content-Type'] = content_type` assignment: the three
attachment asserts (`assert renderer`, `assert accepted_media_type` —
truthiness, so a `some ""` media type fails — and `assert context is not
None`), the `context['response'] = self` injection, and the content-type
computation `declared / media_type; charset=charset / media_type`.
Returns the updated response together with the renderer, the accepted media
type and the mutated context that the second half uses. -/
def Response.rendered_content_pre (resp : Response) :
    Except String (Response × Renderer × String × Ctx) :=
  match resp.accepted_renderer with
  | none => .error ".accepted_renderer not set on Response"
  | some renderer =>
    match resp.accepted_media_type with
    | none => .error ".accepted_media_type not set on Response"
    | some accepted_media_type =>
      if accepted_media_type = "" then
        .error ".accepted_media_type not set on Response"
      else
        match resp.renderer_context with
        | none => .error ".renderer_context not set on Response"
        | some context =>
          let context := alistSet context "response" CtxVal.responseRef
          let content_type :=
            outgoingContentType resp.content_type renderer.media_type
              renderer.charset
          let resp := { resp with
            renderer_context := some context,
            headers := alistSet resp.headers "Content-Type" content_type }
          .ok (resp, renderer, accepted_media_type, context)

/-- Model of `Response.rendered_content`: the preamble above, then
`ret = renderer.render(self.data, accepted_media_type, context)`; a `str`
result must encode with the renderer's charset (`assert charset` —
truthiness, so `none` and `some ""` both fail); a falsy (empty bytes)
result deletes the `Content-Type` header.  Returns the updated response
state together with the returned byte string. -/
def Response.rendered_content (resp : Response) :
    Except String (Response × List Nat) :=
  match resp.rendered_content_pre with
  | .error e => .error e
  | .ok (resp, renderer, accepted_media_type, context) =>
    match renderer.render resp.data accepted_media_type context with
    | .text s =>
      match renderer.charset with
      | none =>
        .error "renderer returned unicode, and did not specify a charset value."
      | some charset =>
        if charset = "" then
          .error "renderer returned unicode, and did not specify a charset value."
        else
          .ok (resp, pyEncode s charset)
    | .bytes ret =>
      if ret = [] then
        .ok ({ resp with headers := alistDel resp.headers "Content-Type" }, ret)
      else
        .ok (resp, ret)

/-- A value held in a pickling state dict (`__getstate__`).  `emptyList`
is the fresh empty list assigned to `_closable_objects`; `val` stands for
whatever the base-class state held. -/
inductive StateVal where
  | emptyList
  | val (tag : Nat)
  deriving DecidableEq

/-- The attribute names `Response.__getstate__` strips from the state. -/
def getstate_removed : List String :=
  ["accepted_renderer", "renderer_context", "resolver_match",
   "client", "request", "json", "wsgi_request"]

/-- Model of `Response.__getstate__`.  `super().__getstate__()` is framework code
outside this repository, so its result `superState` is taken as input; each
key of `getstate_removed` is deleted when present (`if key in state: del
state[key]`) and `state['_closable_objects'] = []` is assigned. -/
def Response.getstate (superState : List (String × StateVal)) :
    List (String × StateVal) :=
  alistSet
    (getstate_removed.foldl
      (fun st key => if (alistGet st key).isSome then alistDel st key else st)
      superState)
    "_closable_objects" StateVal.emptyList

/-- The `Content-Type` header of the response state right after the
`self['Content-Type'] = content_type` assignment inside `rendered_content`
(`none` when a precondition assert fails first). -/
def contentTypeAfterPre (resp : Response) : Option String :=
  match resp.rendered_content_pre with
  | .ok st => alistGet st.1.headers "Content-Type"
  | .error _ => none

/-! ## Concrete fixtures used to instantiate the theorems -/

/-- A response as `__init__` would build it for the payload `"payload"`,
before the pipeline attaches the transient fields. -/
def baseResp : Response :=
  { data := .pyStr "payload", status := some 200, template_name := none,
    exception := false, content_type := none, headers := [] }

/-- A fixture renderer that always returns the byte string `b`. -/
def bytesRenderer (b : List Nat) : Renderer :=
  { media_type := "application/json", charset := some "utf-8",
    render := fun _ _ _ => .bytes b }

/-- A fixture renderer that always returns the text `s`, with a configurable
declared charset. -/
def textRenderer (s : String) (cs : Option String) : Renderer :=
  { media_type := "text/html", charset := cs,
    render := fun _ _ _ => .text s }

/-! ## Association-list lemmas (shared) -/

theorem alistGet_set_self (l : List (String × α)) (k : String) (v : α) :
    alistGet (alistSet l k v) k = some v := by
  unfold alistGet alistSet
  rw [List.find?_append]
  have h : (l.filter (fun kv => kv.1 != k)).find? (fun kv => kv.1 == k) = none := by
    refine List.find?_eq_none.2 (fun x hx => ?_)
    simp only [List.mem_filter, bne_iff_ne] at hx
    simp [hx.2]
  rw [h]
  simp [List.find?]

theorem find?_filter_of_imp (l : List β) (p q : β → Bool)
    (h : ∀ x, p x = true → q x = true) :
    (l.filter q).find? p = l.find? p := by
  induction l with
  | nil => rfl
  | cons a t ih =>
    by_cases hqa : q a = true
    · by_cases hpa : p a = true
      · simp [List.filter_cons, hqa, List.find?_cons, hpa]
      · simp [List.filter_cons, hqa, List.find?_cons, hpa, ih]
    · have hpa : p a = false := by
        cases hp : p a
        · rfl
        · exact absurd (h a hp) (by simp [hqa])
      simp [List.filter_cons, hqa, List.find?_cons, hpa, ih]

theorem alistGet_filter (l : List (String × α)) (k : String)
    (q : String × α → Bool) (hq : ∀ x, x.1 = k → q x = true) :
    alistGet (l.filter q) k = alistGet l k := by
  unfold alistGet
  rw [find?_filter_of_imp l (fun kv => kv.1 == k) q
    (fun x hx => hq x (by simpa using hx))]

theorem alistGet_set_ne (l : List (String × α)) (k k' : String) (v : α)
    (h : k' ≠ k) : alistGet (alistSet l k' v) k = alistGet l k := by
  unfold alistGet alistSet
  rw [List.find?_append]
  rw [find?_filter_of_imp l (fun kv => kv.1 == k) (fun kv => kv.1 != k')
    (fun x hx => by simp only [beq_iff_eq] at hx; simp [hx, bne_iff_ne]
                    exact fun e => h e.symm)]
  have h2 : ([(k', v)].find? (fun kv => kv.1 == k)) = none := by
    have hkk : (k' == k) = false := by simp [h]
    simp [List.find?, hkk]
  rw [h2, Option.or_none]

theorem alistGet_del_self (l : List (String × α)) (k : String) :
    alistGet (alistDel l k) k = none := by
  unfold alistGet alistDel
  rw [List.find?_eq_none.2 (fun x hx => by
    simp only [List.mem_filter, bne_iff_ne] at hx
    simp [hx.2])]
  rfl

theorem alistGet_foldl_set_absent (hs acc : List (String × α)) (k : String)
    (h : ∀ kv ∈ hs, kv.1 ≠ k) :
    alistGet (hs.foldl (fun m kv => alistSet m kv.1 kv.2) acc) k
      = alistGet acc k := by
  induction hs generalizing acc with
  | nil => rfl
  | cons a t ih =>
    rw [List.foldl_cons, ih _ (fun kv hkv => h kv (List.mem_cons_of_mem a hkv))]
    exact alistGet_set_ne acc k a.1 a.2 (h a (List.mem_cons_self a t))

theorem alistGet_foldl_set_mem (hs acc : List (String × α))
    (hnd : (hs.map Prod.fst).Nodup) (k : String) (v : α)
    (hmem : (k, v) ∈ hs) :
    alistGet (hs.foldl (fun m kv => alistSet m kv.1 kv.2) acc) k = some v := by
  induction hs generalizing acc with
  | nil => cases hmem
  | cons a t ih =>
    rw [List.map_cons, List.nodup_cons] at hnd
    rw [List.foldl_cons]
    rcases List.mem_cons.1 hmem with heq | hmem'
    · subst heq
      rw [alistGet_foldl_set_absent t _ k
        (fun kv hkv hk => hnd.1 (List.mem_map.2 ⟨kv, hkv, hk⟩))]
      exact alistGet_set_self acc k v
    · exact ih _ hnd.2 hmem'

theorem alistGet_none_of_filter (l : List (String × α)) (k : String)
    (q : String × α → Bool) (h : alistGet l k = none) :
    alistGet (l.filter q) k = none := by
  unfold alistGet at *
  have hf : l.find? (fun kv => kv.1 == k) = none := by
    cases hf : l.find? (fun kv => kv.1 == k) with
    | none => rfl
    | some x => rw [hf] at h; simp at h
  rw [List.find?_eq_none] at hf
  rw [List.find?_eq_none.2 (fun x hx => hf x (List.mem_of_mem_filter hx))]
  rfl

theorem alistGet_condDel_fold_preserves_none (keys : List String)
    (st : List (String × α)) (k : String) (h : alistGet st k = none) :
    alistGet
      (keys.foldl
        (fun st key => if (alistGet st key).isSome then alistDel st key else st)
        st) k = none := by
  induction keys generalizing st with
  | nil => exact h
  | cons a t ih =>
    rw [List.foldl_cons]
    refine ih _ ?_
    by_cases hs : (alistGet st a).isSome
    · rw [if_pos hs]
      exact alistGet_none_of_filter st k _ h
    · rw [if_neg hs]
      exact h

theorem alistGet_condDel_fold_mem (keys : List String)
    (st : List (String × α)) (k : String) (hk : k ∈ keys) :
    alistGet
      (keys.foldl
        (fun st key => if (alistGet st key).isSome then alistDel st key else st)
        st) k = none := by
  induction keys generalizing st with
  | nil => cases hk
  | cons a t ih =>
    rw [List.foldl_cons]
    by_cases hkt : k ∈ t
    · exact ih _ hkt
    · have hka : k = a := by
        rcases List.mem_cons.1 hk with h | h
        · exact h
        · exact absurd h hkt
      subst hka
      refine alistGet_condDel_fold_preserves_none t _ k ?_
      by_cases hs : (alistGet st k).isSome
      · rw [if_pos hs]
        exact alistGet_del_self st k
      · rw [if_neg hs]
        exact Option.not_isSome_iff_eq_none.1 hs

theorem rendered_content_pre_ok (resp : Response) (renderer : Renderer)
    (amt : String) (ctx : Ctx)
    (h1 : resp.accepted_renderer = some renderer)
    (h2 : resp.accepted_media_type = some amt) (h3 : amt ≠ "")
    (h4 : resp.renderer_context = some ctx) :
    resp.rendered_content_pre = .ok
      ({ resp with
          renderer_context := some (alistSet ctx "response" CtxVal.responseRef),
          headers := alistSet resp.headers "Content-Type"
            (outgoingContentType resp.content_type renderer.media_type
              renderer.charset) },
        renderer, amt, alistSet ctx "response" CtxVal.responseRef) := by
  unfold Response.rendered_content_pre
  rw [h1, h2, h4]
  simp only [if_neg h3]

/-! ## Claim theorems -/

/-- C2: `get_message` returns the `http_<code>` attribute for every integer
code in `[200, 600)` that has one (in particular `200 ↦ 'success'` and
`201 ↦ '资源创建成功'`), the single default message for in-range codes with
no attribute (e.g. `250`), and fails with the precondition error on every
non-integer or out-of-range argument (e.g. `999`).  Purity and determinism
hold by construction: `get_message` is a Lean function of `code` alone. -/
theorem get_message_contract :
    (∀ code : Int, 200 ≤ code → code < 600 →
      HttpResponseMessage.get_message (.pyInt code)
        = .ok ((HttpResponseMessage.http_attr code).getD
            HttpResponseMessage.http_default)) ∧
    (∀ code : Int, ¬(200 ≤ code ∧ code < 600) →
      HttpResponseMessage.get_message (.pyInt code)
        = .error "code Must be a standard HTTP status code") ∧
    (∀ v : PyVal, (∀ n : Int, v ≠ .pyInt n) →
      HttpResponseMessage.get_message v
        = .error "code Must be a standard HTTP status code") ∧
    HttpResponseMessage.get_message (.pyInt 200) = .ok "success" ∧
    HttpResponseMessage.get_message (.pyInt 201) = .ok "资源创建成功" ∧
    HttpResponseMessage.get_message (.pyInt 250)
      = .ok HttpResponseMessage.http_default ∧
    HttpResponseMessage.get_message (.pyInt 999)
      = .error "code Must be a standard HTTP status code" := by
  refine ⟨?_, ?_, ?_, rfl, rfl, rfl, rfl⟩
  · intro code hlo hhi
    simp [HttpResponseMessage.get_message, hlo, hhi]
  · intro code h
    simp [HttpResponseMessage.get_message, h]
  · intro v hv
    cases v with
    | pyInt n => exact absurd rfl (hv n)
    | pyNone => rfl
    | pyStr s => rfl
    | serializer tag => rfl
    | obj tag => rfl

/-- C2 witness: the contract instantiated at `404` (mapped), `300`
(in-range, unmapped), a string argument, and `150` (out of range). -/
theorem get_message_contract_witness :
    HttpResponseMessage.get_message (.pyInt 404) = .ok "您请求的资源不存在" ∧
    HttpResponseMessage.get_message (.pyInt 300)
      = .ok HttpResponseMessage.http_default ∧
    HttpResponseMessage.get_message (.pyStr "200")
      = .error "code Must be a standard HTTP status code" ∧
    HttpResponseMessage.get_message (.pyInt 150)
      = .error "code Must be a standard HTTP status code" :=
  ⟨by rw [get_message_contract.1 404 (by decide) (by decide)]; rfl,
   by rw [get_message_contract.1 300 (by decide) (by decide)]; rfl,
   get_message_contract.2.2.1 (.pyStr "200") (fun _ h => PyVal.noConfusion h),
   get_message_contract.2.1 150 (by decide)⟩

/-- C8: invoking the `HttpResponseMessage` callable with any integer code
and any extra positional or keyword arguments returns exactly
`get_message(code)`; the extra arguments are ignored. -/
theorem call_eq_get_message :
    ∀ (n : Int) (args : List PyVal) (kwargs : List (String × PyVal)),
      HttpResponseMessage.call (.pyInt n) args kwargs
        = HttpResponseMessage.get_message (.pyInt n) :=
  fun _ _ _ => rfl

/-- C7: for every base-class state, the `__getstate__` snapshot contains
none of the stripped fields (renderer, context, route match, client,
request, parsed json, raw wsgi handle) and its `_closable_objects` entry is
the fresh empty list. -/
theorem getstate_strips_fields :
    ∀ superState : List (String × StateVal),
      (∀ k ∈ getstate_removed,
        alistGet (Response.getstate superState) k = none) ∧
      alistGet (Response.getstate superState) "_closable_objects"
        = some StateVal.emptyList := by
  intro st
  constructor
  · intro k hk
    unfold Response.getstate
    rw [alistGet_set_ne _ _ _ _ (by fin_cases hk <;> decide)]
    exact alistGet_condDel_fold_mem _ _ _ hk
  · unfold Response.getstate
    exact alistGet_set_self _ _ _

/-- C7 witness: a state carrying a request handle, a payload entry and a
stale `_closable_objects` list. -/
theorem getstate_strips_fields_witness :
    alistGet
      (Response.getstate
        [("request", StateVal.val 0), ("data", StateVal.val 1),
         ("_closable_objects", StateVal.val 2)]) "request" = none ∧
    alistGet
      (Response.getstate
        [("request", StateVal.val 0), ("data", StateVal.val 1),
         ("_closable_objects", StateVal.val 2)]) "_closable_objects"
      = some StateVal.emptyList :=
  ⟨(getstate_strips_fields _).1 "request" (by decide),
   (getstate_strips_fields _).2⟩

/-- C4: constructing a `Response` fails with the construction-time
precondition error exactly on serializer payloads; on every other payload
it succeeds, stores the payload unchanged in `data`, and applies every
`headers` entry as a literal header assignment. -/
theorem init_contract :
    (∀ (tag : Nat) (status : Option Nat) (tn : Option String)
        (hs : List (String × String)) (exc : Bool) (ct : Option String),
      Response.init (.serializer tag) status tn hs exc ct
        = .error "You passed a Serializer instance as data, but probably meant to pass serialized `.data` or `.error`. representation.") ∧
    (∀ (data : PyVal) (status : Option Nat) (tn : Option String)
        (hs : List (String × String)) (exc : Bool) (ct : Option String),
      data.isSerializer = false →
      ∃ resp, Response.init data status tn hs exc ct = .ok resp ∧
        resp.data = data ∧
        ((hs.map Prod.fst).Nodup →
          ∀ kv ∈ hs, alistGet resp.headers kv.1 = some kv.2)) := by
  constructor
  · intro tag status tn hs exc ct
    rfl
  · intro data status tn hs exc ct hser
    refine ⟨{ data := data, status := status, template_name := tn,
              exception := exc, content_type := ct,
              headers := hs.foldl (fun h kv => alistSet h kv.1 kv.2) [] },
            ?_, rfl, ?_⟩
    · simp [Response.init, hser]
    · intro hnd kv hkv
      exact alistGet_foldl_set_mem hs [] hnd kv.1 kv.2 hkv

/-- C4 witness: a serializer payload is rejected; a string payload with one
header override is stored and the override is applied. -/
theorem init_contract_witness :
    Response.init (.serializer 0) none none [] false none
      = .error "You passed a Serializer instance as data, but probably meant to pass serialized `.data` or `.error`. representation." ∧
    ∃ resp, Response.init (.pyStr "hello") (some 200) none
        [("X-Custom", "1")] false none = .ok resp ∧
      resp.data = .pyStr "hello" ∧
      ((([("X-Custom", "1")] : List (String × String)).map Prod.fst).Nodup →
        ∀ kv ∈ [("X-Custom", "1")], alistGet resp.headers kv.1 = some kv.2) :=
  ⟨init_contract.1 0 none none [] false none,
   init_contract.2 (.pyStr "hello") (some 200) none
     [("X-Custom", "1")] false none rfl⟩

/-- C3: reading `rendered_content` with any of the three transient fields
unattached fails with the corresponding precondition-violation error, in
each of the three individual-field-missing cases. -/
theorem rendered_content_requires_attachment (resp : Response) :
    (resp.accepted_renderer = none →
      resp.rendered_content
        = .error ".accepted_renderer not set on Response") ∧
    (∀ renderer, resp.accepted_renderer = some renderer →
      resp.accepted_media_type = none →
      resp.rendered_content
        = .error ".accepted_media_type not set on Response") ∧
    (∀ renderer amt, resp.accepted_renderer = some renderer →
      resp.accepted_media_type = some amt → amt ≠ "" →
      resp.renderer_context = none →
      resp.rendered_content
        = .error ".renderer_context not set on Response") := by
  refine ⟨?_, ?_, ?_⟩
  · intro h
    unfold Response.rendered_content Response.rendered_content_pre
    rw [h]
  · intro renderer h1 h2
    unfold Response.rendered_content Response.rendered_content_pre
    rw [h1, h2]
  · intro renderer amt h1 h2 h3 h4
    unfold Response.rendered_content Response.rendered_content_pre
    rw [h1, h2, h4]
    simp only [if_neg h3]

/-- C3 witness: each of the three fields missing individually on an
otherwise fully attached response. -/
theorem rendered_content_requires_attachment_witness :
    Response.rendered_content
      { baseResp with accepted_media_type := some "application/json",
                      renderer_context := some [] }
      = .error ".accepted_renderer not set on Response" ∧
    Response.rendered_content
      { baseResp with accepted_renderer := some (bytesRenderer [123]),
                      renderer_context := some [] }
      = .error ".accepted_media_type not set on Response" ∧
    Response.rendered_content
      { baseResp with accepted_renderer := some (bytesRenderer [123]),
                      accepted_media_type := some "application/json" }
      = .error ".renderer_context not set on Response" :=
  ⟨(rendered_content_requires_attachment _).1 rfl,
   (rendered_content_requires_attachment _).2.1 (bytesRenderer [123]) rfl rfl,
   (rendered_content_requires_attachment _).2.2 (bytesRenderer [123])
     "application/json" rfl rfl (by decide) rfl⟩

/-- C1: on a response with renderer, media type and context attached, the
`Content-Type` header written by `rendered_content` is exactly the declared
`content_type` when one was set (regardless of the renderer's media type);
otherwise `"<media_type>; charset=<charset>"` when the renderer declares a
non-`None` charset; otherwise the bare renderer media type.  The written
value is also the final header of every successful rendering with a
non-empty result. -/
theorem rendered_content_content_type_header (resp : Response)
    (renderer : Renderer) (amt : String) (ctx : Ctx)
    (h1 : resp.accepted_renderer = some renderer)
    (h2 : resp.accepted_media_type = some amt) (h3 : amt ≠ "")
    (h4 : resp.renderer_context = some ctx) :
    (∀ ct, resp.content_type = some ct →
      contentTypeAfterPre resp = some ct) ∧
    (∀ ch, resp.content_type = none → renderer.charset = some ch →
      contentTypeAfterPre resp
        = some (renderer.media_type ++ "; charset=" ++ ch)) ∧
    (resp.content_type = none → renderer.charset = none →
      contentTypeAfterPre resp = some renderer.media_type) ∧
    (∀ resp₁ ret, resp.rendered_content = .ok (resp₁, ret) → ret ≠ [] →
      alistGet resp₁.headers "Content-Type" = contentTypeAfterPre resp) := by
  have hpre := rendered_content_pre_ok resp renderer amt ctx h1 h2 h3 h4
  have hctp : contentTypeAfterPre resp
      = some (outgoingContentType resp.content_type renderer.media_type
          renderer.charset) := by
    unfold contentTypeAfterPre
    rw [hpre]
    exact alistGet_set_self _ _ _
  refine ⟨?_, ?_, ?_, ?_⟩
  · intro ct hct
    rw [hctp, hct]
    rfl
  · intro ch hnone hch
    rw [hctp, hnone, hch]
    rfl
  · intro hnone hch
    rw [hctp, hnone, hch]
    rfl
  · intro resp₁ ret hok hne
    unfold Response.rendered_content at hok
    rw [hpre] at hok
    dsimp only at hok
    split at hok
    · split at hok
      · exact absurd hok (by simp)
      · split at hok
        · exact absurd hok (by simp)
        · simp only [Except.ok.injEq, Prod.mk.injEq] at hok
          rw [← hok.1, hctp]
          exact alistGet_set_self _ _ _
    · split at hok
      · rename_i hb
        simp only [Except.ok.injEq, Prod.mk.injEq] at hok
        exact absurd (hok.2 ▸ hb) hne
      · simp only [Except.ok.injEq, Prod.mk.injEq] at hok
        rw [← hok.1, hctp]
        exact alistGet_set_self _ _ _

/-- C1 witness: a json renderer with charset `utf-8` and no declared
content type yields `application/json; charset=utf-8`; a declared
`text/plain` wins regardless of the renderer's media type. -/
theorem rendered_content_content_type_header_witness :
    contentTypeAfterPre
      { baseResp with accepted_renderer := some (bytesRenderer [123]),
                      accepted_media_type := some "application/json",
                      renderer_context := some [] }
      = some "application/json; charset=utf-8" ∧
    contentTypeAfterPre
      { baseResp with content_type := some "text/plain",
                      accepted_renderer := some (bytesRenderer [123]),
                      accepted_media_type := some "application/json",
                      renderer_context := some [] }
      = some "text/plain" :=
  ⟨(rendered_content_content_type_header _ (bytesRenderer [123])
      "application/json" [] rfl rfl (by decide) rfl).2.1 "utf-8" rfl rfl,
   (rendered_content_content_type_header _ (bytesRenderer [123])
      "application/json" [] rfl rfl (by decide) rfl).1 "text/plain" rfl⟩

/-- C5 counterexample: a renderer that declares the empty-string charset
(declared, i.e. not `None`) and returns text.  The claim says the text is
encoded with that charset; the code instead fails the `assert charset`
truthiness check and raises the precondition error. -/
theorem rendered_content_text_empty_charset_cex :
    (textRenderer "hi" (some "")).charset = some "" ∧
    Response.rendered_content
      { baseResp with
        accepted_renderer := some (textRenderer "hi" (some "")),
        accepted_media_type := some "text/html",
        renderer_context := some [] }
      = .error "renderer returned unicode, and did not specify a charset value." :=
  ⟨rfl, rfl⟩

/-- C5 amended: whenever the renderer returns a text result, rendering
fails with the precondition error if the renderer declares no charset or
declares an empty (falsy) charset; if a non-empty charset is declared, the
returned value is the text encoded to bytes using that charset. -/
theorem rendered_content_text_encoding (resp : Response)
    (renderer : Renderer) (amt : String) (ctx : Ctx) (s : String)
    (h1 : resp.accepted_renderer = some renderer)
    (h2 : resp.accepted_media_type = some amt) (h3 : amt ≠ "")
    (h4 : resp.renderer_context = some ctx)
    (h5 : renderer.render resp.data amt
        (alistSet ctx "response" CtxVal.responseRef) = .text s) :
    (renderer.charset = none →
      resp.rendered_content
        = .error "renderer returned unicode, and did not specify a charset value.") ∧
    (renderer.charset = some "" →
      resp.rendered_content
        = .error "renderer returned unicode, and did not specify a charset value.") ∧
    (∀ ch, renderer.charset = some ch → ch ≠ "" →
      ∃ resp₁, resp.rendered_content = .ok (resp₁, pyEncode s ch)) := by
  have hpre := rendered_content_pre_ok resp renderer amt ctx h1 h2 h3 h4
  refine ⟨?_, ?_, ?_⟩
  · intro hch
    unfold Response.rendered_content
    rw [hpre]
    dsimp only
    rw [h5, hch]
  · intro hch
    unfold Response.rendered_content
    rw [hpre]
    dsimp only
    rw [h5, hch]
    rfl
  · intro ch hch hne
    have hmain : resp.rendered_content
        = .ok ({ resp with
            renderer_context := some (alistSet ctx "response" CtxVal.responseRef),
            headers := alistSet resp.headers "Content-Type"
              (outgoingContentType resp.content_type renderer.media_type
                renderer.charset) },
          pyEncode s ch) := by
      unfold Response.rendered_content
      rw [hpre]
      dsimp only
      rw [h5, hch]
      simp only [if_neg hne]
    exact ⟨_, hmain⟩

/-- C5 amended witness: a text renderer with charset `utf-8` encodes its
text; one with no charset raises the precondition error. -/
theorem rendered_content_text_encoding_witness :
    (∃ resp₁, Response.rendered_content
      { baseResp with
        accepted_renderer := some (textRenderer "hi" (some "utf-8")),
        accepted_media_type := some "text/html",
        renderer_context := some [] }
      = .ok (resp₁, pyEncode "hi" "utf-8")) ∧
    Response.rendered_content
      { baseResp with
        accepted_renderer := some (textRenderer "hi" none),
        accepted_media_type := some "text/html",
        renderer_context := some [] }
      = .error "renderer returned unicode, and did not specify a charset value." :=
  ⟨(rendered_content_text_encoding _ (textRenderer "hi" (some "utf-8"))
      "text/html" [] "hi" rfl rfl (by decide) rfl rfl).2.2 "utf-8" rfl
      (by decide),
   (rendered_content_text_encoding _ (textRenderer "hi" none)
      "text/html" [] "hi" rfl rfl (by decide) rfl rfl).1 rfl⟩

/-- C6: when the renderer returns an empty byte string, the `Content-Type`
header is absent from the response after rendering (it is deleted as a side
effect) and the empty byte result is returned. -/
theorem rendered_content_empty_bytes (resp : Response)
    (renderer : Renderer) (amt : String) (ctx : Ctx)
    (h1 : resp.accepted_renderer = some renderer)
    (h2 : resp.accepted_media_type = some amt) (h3 : amt ≠ "")
    (h4 : resp.renderer_context = some ctx)
    (h5 : renderer.render resp.data amt
        (alistSet ctx "response" CtxVal.responseRef) = .bytes []) :
    ∃ resp₁, resp.rendered_content = .ok (resp₁, []) ∧
      alistGet resp₁.headers "Content-Type" = none := by
  have hpre := rendered_content_pre_ok resp renderer amt ctx h1 h2 h3 h4
  have hmain : resp.rendered_content
      = .ok ({ resp with
          renderer_context := some (alistSet ctx "response" CtxVal.responseRef),
          headers := alistDel
            (alistSet resp.headers "Content-Type"
              (outgoingContentType resp.content_type renderer.media_type
                renderer.charset)) "Content-Type" },
        []) := by
    unfold Response.rendered_content
    rw [hpre]
    dsimp only
    rw [h5]
    rfl
  exact ⟨_, hmain, alistGet_del_self _ _⟩

/-- C6 witness: a renderer returning `b''` leaves no `Content-Type` header
behind. -/
theorem rendered_content_empty_bytes_witness :
    ∃ resp₁, Response.rendered_content
      { baseResp with
        accepted_renderer := some (bytesRenderer []),
        accepted_media_type := some "application/json",
        renderer_context := some [] }
      = .ok (resp₁, []) ∧
      alistGet resp₁.headers "Content-Type" = none :=
  rendered_content_empty_bytes _ (bytesRenderer []) "application/json" []
    rfl rfl (by decide) rfl rfl

/-- C9: when the renderer returns the empty text and declares a non-empty
charset, `rendered_content` returns the (empty) encoding of that text and
the `Content-Type` header is not removed: the deletion branch for empty
results applies only to byte results, because the text path returns
first. -/
theorem rendered_content_empty_text (resp : Response)
    (renderer : Renderer) (amt : String) (ctx : Ctx) (ch : String)
    (h1 : resp.accepted_renderer = some renderer)
    (h2 : resp.accepted_media_type = some amt) (h3 : amt ≠ "")
    (h4 : resp.renderer_context = some ctx)
    (h5 : renderer.render resp.data amt
        (alistSet ctx "response" CtxVal.responseRef) = .text "")
    (h6 : renderer.charset = some ch) (h7 : ch ≠ "") :
    ∃ resp₁, resp.rendered_content = .ok (resp₁, pyEncode "" ch) ∧
      pyEncode "" ch = [] ∧
      alistGet resp₁.headers "Content-Type"
        = some (outgoingContentType resp.content_type renderer.media_type
            renderer.charset) := by
  have hpre := rendered_content_pre_ok resp renderer amt ctx h1 h2 h3 h4
  have hmain : resp.rendered_content
      = .ok ({ resp with
          renderer_context := some (alistSet ctx "response" CtxVal.responseRef),
          headers := alistSet resp.headers "Content-Type"
            (outgoingContentType resp.content_type renderer.media_type
              renderer.charset) },
        pyEncode "" ch) := by
    unfold Response.rendered_content
    rw [hpre]
    dsimp only
    rw [h5, h6]
    simp only [if_neg h7]
  exact ⟨_, hmain, rfl, alistGet_set_self _ _ _⟩

/-- C9 witness: a text renderer returning `""` with charset `utf-8` yields
the empty byte string and keeps `text/html; charset=utf-8`. -/
theorem rendered_content_empty_text_witness :
    ∃ resp₁, Response.rendered_content
      { baseResp with
        accepted_renderer := some (textRenderer "" (some "utf-8")),
        accepted_media_type := some "text/html",
        renderer_context := some [] }
      = .ok (resp₁, pyEncode "" "utf-8") ∧
      pyEncode "" "utf-8" = [] ∧
      alistGet resp₁.headers "Content-Type"
        = some (outgoingContentType none "text/html" (some "utf-8")) :=
  rendered_content_empty_text _ (textRenderer "" (some "utf-8"))
    "text/html" [] "utf-8" rfl rfl (by decide) rfl rfl rfl (by decide)

/-- C10: the attachment precondition checks the rendering context only for
being non-`None`, so an attached empty mapping passes and rendering
proceeds (the only later failure is the text-without-charset assert); by
contrast the media type is checked by truthiness, so an attached empty
media-type string fails the precondition. -/
theorem rendered_content_truthiness :
    (∀ (resp : Response) (renderer : Renderer) (amt : String),
      resp.accepted_renderer = some renderer →
      resp.accepted_media_type = some amt → amt ≠ "" →
      resp.renderer_context = some ([] : Ctx) →
      (∃ out, resp.rendered_content = .ok out) ∨
        resp.rendered_content
          = .error "renderer returned unicode, and did not specify a charset value.") ∧
    (∀ (resp : Response) (renderer : Renderer),
      resp.accepted_renderer = some renderer →
      resp.accepted_media_type = some "" →
      resp.rendered_content
        = .error ".accepted_media_type not set on Response") := by
  constructor
  · intro resp renderer amt h1 h2 h3 h4
    have hpre := rendered_content_pre_ok resp renderer amt [] h1 h2 h3 h4
    cases hrr : renderer.render resp.data amt
        (alistSet [] "response" CtxVal.responseRef) with
    | text s =>
      cases hch : renderer.charset with
      | none =>
        refine Or.inr ?_
        unfold Response.rendered_content
        rw [hpre]
        dsimp only
        rw [hrr, hch]
      | some c =>
        by_cases hc : c = ""
        · refine Or.inr ?_
          unfold Response.rendered_content
          rw [hpre]
          dsimp only
          rw [hrr, hch]
          simp only [if_pos hc]
        · have hmain : resp.rendered_content
              = .ok ({ resp with
                  renderer_context :=
                    some (alistSet [] "response" CtxVal.responseRef),
                  headers := alistSet resp.headers "Content-Type"
                    (outgoingContentType resp.content_type
                      renderer.media_type renderer.charset) },
                pyEncode s c) := by
            unfold Response.rendered_content
            rw [hpre]
            dsimp only
            rw [hrr, hch]
            simp only [if_neg hc]
          exact Or.inl ⟨_, hmain⟩
    | bytes b =>
      by_cases hb : b = []
      · have hmain : resp.rendered_content
            = .ok ({ resp with
                renderer_context :=
                  some (alistSet [] "response" CtxVal.responseRef),
                headers := alistDel
                  (alistSet resp.headers "Content-Type"
                    (outgoingContentType resp.content_type
                      renderer.media_type renderer.charset)) "Content-Type" },
              b) := by
          unfold Response.rendered_content
          rw [hpre]
          dsimp only
          rw [hrr]
          simp only [if_pos hb]
        exact Or.inl ⟨_, hmain⟩
      · have hmain : resp.rendered_content
            = .ok ({ resp with
                renderer_context :=
                  some (alistSet [] "response" CtxVal.responseRef),
                headers := alistSet resp.headers "Content-Type"
                  (outgoingContentType resp.content_type
                    renderer.media_type renderer.charset) },
              b) := by
          unfold Response.rendered_content
          rw [hpre]
          dsimp only
          rw [hrr]
          simp only [if_neg hb]
        exact Or.inl ⟨_, hmain⟩
  · intro resp renderer h1 h2
    unfold Response.rendered_content Response.rendered_content_pre
    rw [h1, h2]
    rfl

/-- C10 witness: an empty context mapping renders successfully; an attached
empty media-type string fails the attachment precondition. -/
theorem rendered_content_truthiness_witness :
    ((∃ out, Response.rendered_content
        { baseResp with
          accepted_renderer := some (bytesRenderer [123]),
          accepted_media_type := some "application/json",
          renderer_context := some [] }
        = .ok out) ∨
      Response.rendered_content
        { baseResp with
          accepted_renderer := some (bytesRenderer [123]),
          accepted_media_type := some "application/json",
          renderer_context := some [] }
        = .error "renderer returned unicode, and did not specify a charset value.") ∧
    Response.rendered_content
      { baseResp with
        accepted_renderer := some (bytesRenderer [123]),
        accepted_media_type := some "",
        renderer_context := some [] }
      = .error ".accepted_media_type not set on Response" :=
  ⟨rendered_content_truthiness.1 _ (bytesRenderer [123]) "application/json"
      rfl rfl (by decide) rfl,
   rendered_content_truthiness.2 _ (bytesRenderer [123]) rfl rfl⟩

end DRF
